import Mathlib

/-!
Verification development for the FX volatility surface module
(`frm/market_data/fx_volatility_surface.py`).

The development is split in two layers, mirroring the source:

* a real-number layer for the numerical interpolation routines
  (`forward_volatility`, `flat_forward_interp`, and the daily-grid row
  construction from `FXVolatilitySurface.__post_init__`), where numpy's
  IEEE-754 behaviour (NaN, infinities, elementwise `np.any` checks) is
  modelled explicitly by the `FVal` type; and

* a rational-number layer for the query/caching/pricing facade
  (`interp_σ_surface`, `price_fx_vanilla_european`,
  `simulate_fx_rate_path`), where every branch the code takes is decidable
  and computable.  External collaborators (Garman-Kohlhagen pricer and
  solvers, Heston calibration and pricers, scipy splines, random-number
  generation) are parameters gathered in the `Externals` structure, as the
  specification treats them as external interfaces.
-/

/-- Calendar dates are modelled as integers (a day index); the embedded code
only uses ordering and equality of dates. -/
abbrev Date := Int

noncomputable section

/-- An IEEE-754-style scalar: a finite value, an infinity, or not-a-number.
numpy produces these in `forward_volatility` when `t2 == t1` (division by
zero) and when taking square roots of negative numbers. -/
inductive FVal where
  | nan : FVal
  | inf : FVal
  | neginf : FVal
  | val : ℝ → FVal

namespace FVal

/-- IEEE addition. -/
def add : FVal → FVal → FVal
  | val a, val b => val (a + b)
  | val _, inf => inf
  | val _, neginf => neginf
  | val _, nan => nan
  | inf, val _ => inf
  | inf, inf => inf
  | inf, neginf => nan
  | inf, nan => nan
  | neginf, val _ => neginf
  | neginf, inf => nan
  | neginf, neginf => neginf
  | neginf, nan => nan
  | nan, _ => nan

/-- IEEE subtraction. -/
def sub : FVal → FVal → FVal
  | val a, val b => val (a - b)
  | val _, inf => neginf
  | val _, neginf => inf
  | val _, nan => nan
  | inf, val _ => inf
  | inf, inf => nan
  | inf, neginf => inf
  | inf, nan => nan
  | neginf, val _ => neginf
  | neginf, inf => neginf
  | neginf, neginf => nan
  | neginf, nan => nan
  | nan, _ => nan

/-- IEEE multiplication (the sign of zero is not modelled; `0 * ±inf = nan`). -/
def mul : FVal → FVal → FVal
  | val a, val b => val (a * b)
  | val a, inf => if 0 < a then inf else if a < 0 then neginf else nan
  | val a, neginf => if 0 < a then neginf else if a < 0 then inf else nan
  | val _, nan => nan
  | inf, val b => if 0 < b then inf else if b < 0 then neginf else nan
  | inf, inf => inf
  | inf, neginf => neginf
  | inf, nan => nan
  | neginf, val b => if 0 < b then neginf else if b < 0 then inf else nan
  | neginf, inf => neginf
  | neginf, neginf => inf
  | neginf, nan => nan
  | nan, _ => nan

/-- IEEE division (signed zeros are not modelled: finite `x / 0` is `±inf`
by the sign of `x`, and `0 / 0 = nan`). -/
def div : FVal → FVal → FVal
  | val a, val b =>
      if b = 0 then (if a = 0 then nan else if 0 < a then inf else neginf)
      else val (a / b)
  | val _, inf => val 0
  | val _, neginf => val 0
  | val _, nan => nan
  | inf, val b => if b < 0 then neginf else inf
  | inf, inf => nan
  | inf, neginf => nan
  | inf, nan => nan
  | neginf, val b => if b < 0 then inf else neginf
  | neginf, inf => nan
  | neginf, neginf => nan
  | neginf, nan => nan
  | nan, _ => nan

/-- The square `x ** 2` of the source. -/
def pow2 : FVal → FVal
  | val a => val (a ^ 2)
  | inf => inf
  | neginf => inf
  | nan => nan

/-- `np.sqrt`: the square root of a negative number is NaN (numpy emits a
runtime warning and continues). -/
def sqrt : FVal → FVal
  | val a => if a < 0 then nan else val (Real.sqrt a)
  | inf => inf
  | neginf => nan
  | nan => nan

/-- Elementwise `x < 0` as numpy evaluates it: false for NaN. -/
def isNeg : FVal → Bool
  | val a => decide (a < 0)
  | neginf => true
  | _ => false

/-- Elementwise `x == 0` as numpy evaluates it: false for NaN. -/
def isZero : FVal → Bool
  | val a => decide (a = 0)
  | _ => false

end FVal

end

/-- Elementwise combination of two numpy arrays (broadcasting is performed
explicitly at every call site). -/
def map2 {α β γ : Type} (f : α → β → γ) : List α → List β → List γ
  | a :: as, b :: bs => f a b :: map2 f as bs
  | _, _ => []

/-- Elementwise combination of three numpy arrays. -/
def map3 {α β γ δ : Type} (f : α → β → γ → δ) : List α → List β → List γ → List δ
  | a :: as, b :: bs, c :: cs => f a b c :: map3 f as bs cs
  | _, _, _ => []

/-- Elementwise combination of four numpy arrays. -/
def map4 {α β γ δ ε : Type} (f : α → β → γ → δ → ε) :
    List α → List β → List γ → List δ → List ε
  | a :: as, b :: bs, c :: cs, d :: ds => f a b c d :: map4 f as bs cs ds
  | _, _, _, _ => []

noncomputable section

/-- Embedding of `FXVolatilitySurface.forward_volatility` (lines 239-268).
Inputs are numpy arrays of floats; scalars are singleton lists.

The source computes `tau = t2 - t1`, warns (without altering control flow)
when some `tau` is zero, attempts `raise ValueErwarnings.warn(...)` when some
`tau` is negative and no `tau` is zero — `ValueErwarnings` is an undefined
name, so a `NameError` is raised — then forms
`result = (σ_t2**2 * t2 - σ_t1**2 * t1) / tau`, raises `ValueError` when any
entry of `result` is negative, and returns `np.sqrt(result)`. -/
def forward_volatility (t1 σ_t1 t2 σ_t2 : List FVal) : Except String (List FVal) :=
  let tau := map2 FVal.sub t2 t1
  if !(tau.any FVal.isZero) && tau.any FVal.isNeg then
    Except.error "NameError: name ValueErwarnings is not defined"
  else
    let result := map2 FVal.div
      (map2 FVal.sub (map2 FVal.mul (σ_t2.map FVal.pow2) t2)
        (map2 FVal.mul (σ_t1.map FVal.pow2) t1)) tau
    if result.any FVal.isNeg then
      Except.error "Negative value encountered under square root."
    else
      Except.ok (result.map FVal.sqrt)

/-- Embedding of `FXVolatilitySurface.flat_forward_interp` (lines 270-290):
`np.sqrt((σ_t1**2 * t1 + σ_t12**2 * (t - t1)) / t)` where `σ_t12` is the
forward volatility between `t1` and `t2`. -/
def flat_forward_interp (t1 σ_t1 t2 σ_t2 t : List FVal) : Except String (List FVal) :=
  match forward_volatility t1 σ_t1 t2 σ_t2 with
  | Except.error e => Except.error e
  | Except.ok σ_t12 =>
      Except.ok (map4 (fun t1v σ1v σ12v tv =>
        FVal.sqrt (FVal.div
          (FVal.add (FVal.mul (FVal.pow2 σ1v) t1v)
            (FVal.mul (FVal.pow2 σ12v) (FVal.sub tv t1v)))
          tv)) t1 σ_t1 σ_t12 t)

/-- One row of the pillar table `σ_pillar` as the daily interpolation in
`__post_init__` (lines 179-204) reads it: the tenor date (the index of the
frame, merged on by `pd.merge_asof`), the year fraction `tenor_years`, and
the quoted smile columns (`σ_25Δput`, `σ_atmΔneutral`, `σ_25Δcall`). -/
structure Pillar where
  tenor_date : Date
  tenor_years : ℝ
  σs : List ℝ

/-- `pd.merge_asof(..., direction='backward')` for one target date: the last
pillar whose tenor date is at or before `d` (exact matches are included). -/
def lookupBackward (ps : List Pillar) (d : Date) : Option Pillar :=
  (ps.filter (fun p => p.tenor_date ≤ d)).getLast?

/-- `pd.merge_asof(..., direction='forward')` for one target date: the first
pillar whose tenor date is at or after `d` (exact matches are included). -/
def lookupForward (ps : List Pillar) (d : Date) : Option Pillar :=
  (ps.filter (fun p => d ≤ p.tenor_date)).head?

/-- One row of the daily volatility grid built in `__post_init__`
(lines 184-204) at target date `d` with year fraction `yf d`:
`σ_t = np.where(t1 != t2, flat_forward_interp(t1, σ_t1, t2, σ_t2, t), σ_t1)`.
`np.where` evaluates both branches eagerly, so `flat_forward_interp` is
invoked (and any exception it raises propagates) even when the bracketing
pillars coincide; its value is discarded in that case and the pillar smile
is copied directly.  Grid dates range over
`pd.date_range(min(σ_pillar.index), max(σ_pillar.index))`, so both brackets
exist for every grid date. -/
def dailyGridRow (ps : List Pillar) (yf : Date → ℝ) (d : Date) : Except String (List FVal) :=
  match lookupBackward ps d, lookupForward ps d with
  | some pl, some pu =>
      (match flat_forward_interp
          (pl.σs.map fun _ => FVal.val pl.tenor_years) (pl.σs.map FVal.val)
          (pu.σs.map fun _ => FVal.val pu.tenor_years) (pu.σs.map FVal.val)
          (pl.σs.map fun _ => FVal.val (yf d)) with
       | Except.error e => Except.error e
       | Except.ok interp =>
           Except.ok (if pl.tenor_years ≠ pu.tenor_years then interp
                      else pl.σs.map FVal.val))
  | _, _ => Except.error "KeyError: no bracketing pillar"

end


/-- Result tuple of the external Heston calibration
`heston_fit_vanilla_fx_smile`: `(v0, vv, kappa, theta, rho, lambda_, IV, SSE)`.
`IV` is the vector of fitted implied volatilities, `SSE` the sum of squared
calibration errors. -/
structure HestonFitResult where
  v0 : ℚ
  vv : ℚ
  kappa : ℚ
  theta : ℚ
  rho : ℚ
  lambda_ : ℚ
  IV : List ℚ
  SSE : ℚ
deriving DecidableEq

/-- A per-date smile fit cached in `K_σ_daily_smile_func`: a scipy
`InterpolatedUnivariateSpline`, a scipy `CubicSpline` (each modelled by the
knot vectors it was built from; evaluation is an external collaborator), or
the Heston parameter tuple. -/
inductive SmileFitEntry where
  | splineUnivariate (K σ : List ℚ) : SmileFitEntry
  | splineCubic (K σ : List ℚ) : SmileFitEntry
  | heston (fit : HestonFitResult) : SmileFitEntry
deriving DecidableEq

/-- One row of the daily grid `Δ_σ_daily` as the query layer reads it: the
year fraction, the interpolated zero rates and forward rate attached by
`__interp_daily_FXF_and_IR_rates`, the delta convention (hardcoded to
`'regular_forward_Δ'` during daily interpolation, source line 205), and the
three smile columns (source line 189 fixes
`cols = ['σ_25Δput','σ_atmΔneutral','σ_25Δcall']`). -/
structure SmileRow where
  tenor_years : ℚ
  foreign_ccy_continuously_compounded_zero_rate : ℚ
  domestic_ccy_continuously_compounded_zero_rate : ℚ
  fx_forward_rate : ℚ
  Δ_convention : String
  σ_25Δput : ℚ
  σ_atmΔneutral : ℚ
  σ_25Δcall : ℚ

/-- The external collaborators consumed by the surface, as the specification
scopes them: the Garman-Kohlhagen pricer/solvers, the Heston calibration and
pricers, scipy spline evaluation, and the Monte-Carlo generators.  Each is a
deterministic function of the arguments the source passes. -/
structure Externals where
  gk_solve_strike : ℚ → ℚ → ℚ → ℚ → List ℚ → List ℚ → String → ℚ → List ℚ
  heston_fit_vanilla_fx_smile :
    List ℚ → String → List ℚ → ℚ → ℚ → ℚ → ℚ → List ℚ → String → HestonFitResult
  spline_univariate_eval : List ℚ → List ℚ → ℚ → ℚ
  spline_cubic_eval : List ℚ → List ℚ → ℚ → ℚ
  heston1993_price_fx_vanilla_european :
    ℚ → ℚ → ℚ → ℚ → ℚ → ℚ → ℚ → ℚ → ℚ → ℚ → ℚ → ℚ → ℚ
  heston_carr_madan_fx_vanilla_european :
    ℚ → ℚ → ℚ → ℚ → ℚ → ℚ → ℚ → ℚ → ℚ → ℚ → ℚ → Nat → ℚ
  gk_solve_implied_σ : ℚ → ℚ → ℚ → ℚ → ℚ → ℚ → ℚ → ℚ → ℚ
  gk_price : ℚ → ℚ → ℚ → ℚ → ℚ → ℚ → ℚ → ℚ → ℚ
  generate_rand_nbs : Nat → Nat → Bool → List (List ℝ)
  simulate_gbm_path : ℝ → List FVal → List FVal → List ℝ → List (List ℝ) → List (List ℝ)

/-- The `FXVolatilitySurface` state after `__post_init__`: construction-time
data plus the mutable per-date smile-fit cache `K_σ_daily_smile_func`
(a Python dict, modelled as an association list in insertion order).  The
day counter, the two zero-curve handles and the interpolated forward curve
are external read-only collaborators, modelled as function-valued fields. -/
structure FXVolatilitySurface where
  curve_date : Date
  curve_ccy : String
  foreign_ccy : String
  domestic_ccy : String
  spot_date : Date
  fx_spot_rate : ℚ
  year_fraction : Date → ℚ
  foreign_zero_rate : Date → ℚ
  domestic_zero_rate : Date → ℚ
  fx_forward_interp : Date → ℚ
  σ_pillar_dates : List Date
  Δ_σ_daily : Date → Option SmileRow
  smile_interpolation_method : String
  K_σ_daily_smile_func : List (Date × SmileFitEntry)

/-- Python dict lookup on the smile-fit cache. -/
def dictLookup {α : Type} : List (Date × α) → Date → Option α
  | [], _ => none
  | (k, v) :: rest, d => if d = k then some v else dictLookup rest d

/-- Call/put signs derived in `interp_σ_surface` (line 406) from the fixed
smile column names: `'k_25Δput' ↦ -1`, `'k_atmΔneutral' ↦ 1` (the `else 1`
branch), `'k_25Δcall' ↦ 1`. -/
def smile_cp : List ℚ := [-1, 1, 1]

/-- Deltas derived in `interp_σ_surface` (line 407) from the fixed smile
column names: `[-0.25, 0.5, 0.25]`. -/
def smile_Δ : List ℚ := [-(1/4), 1/2, 1/4]

/-- The smile columns of a daily row, in the source's column order. -/
def smile_σs (row : SmileRow) : List ℚ :=
  [row.σ_25Δput, row.σ_atmΔneutral, row.σ_25Δcall]

/-- Sequencing of a Python `for` loop body that can raise, collecting one
result per element. -/
def exceptMapM {α β : Type} (f : α → Except String β) : List α → Except String (List β)
  | [] => Except.ok []
  | a :: as =>
    match f a with
    | Except.error e => Except.error e
    | Except.ok b =>
      match exceptMapM f as with
      | Except.error e => Except.error e
      | Except.ok bs => Except.ok (b :: bs)

/-- Sequencing of a Python `for` loop body that can raise, threading a state. -/
def exceptFoldl {σ α : Type} (f : σ → α → Except String σ) : σ → List α → Except String σ
  | s, [] => Except.ok s
  | s, a :: as =>
    match f s a with
    | Except.error e => Except.error e
    | Except.ok s2 => exceptFoldl f s2 as

/-- The body of the fitting loop of `interp_σ_surface` (lines 393-426) for
one unique date: if the date is not yet cached, build the fit — splines via
the strike solver, Heston variants via the external calibration, gated by
`SSE < 0.001` — and insert it into the cache; a poor Heston fit raises a
`ValueError` naming the date.  Methods without a branch (e.g. `vanna_volga`)
do nothing. -/
def fit_smile_for_date (ext : Externals) (method : String) (S : ℚ) (row : SmileRow)
    (date : Date) (cache : List (Date × SmileFitEntry)) :
    Except String (List (Date × SmileFitEntry)) :=
  if (dictLookup cache date).isSome then Except.ok cache
  else
    if method = "univariate_spline" then
      let K := ext.gk_solve_strike S row.tenor_years
        row.foreign_ccy_continuously_compounded_zero_rate
        row.domestic_ccy_continuously_compounded_zero_rate
        (smile_σs row) smile_Δ row.Δ_convention row.fx_forward_rate
      Except.ok (cache ++ [(date, SmileFitEntry.splineUnivariate K (smile_σs row))])
    else if method = "cubic_spline" then
      let K := ext.gk_solve_strike S row.tenor_years
        row.foreign_ccy_continuously_compounded_zero_rate
        row.domestic_ccy_continuously_compounded_zero_rate
        (smile_σs row) smile_Δ row.Δ_convention row.fx_forward_rate
      Except.ok (cache ++ [(date, SmileFitEntry.splineCubic K (smile_σs row))])
    else if method.take 6 = "heston" then
      let fit := ext.heston_fit_vanilla_fx_smile smile_Δ row.Δ_convention (smile_σs row)
        S row.foreign_ccy_continuously_compounded_zero_rate
        row.domestic_ccy_continuously_compounded_zero_rate
        row.tenor_years smile_cp method
      if fit.SSE < 1/1000 then
        Except.ok (cache ++ [(date, SmileFitEntry.heston fit)])
      else
        Except.error ("SSE is a large value, heston fit at " ++ toString date ++
          " is likely poor")
    else Except.ok cache

/-- The body of the serving loop of `interp_σ_surface` (lines 429-453) for
one `(date, strike, call/put)` row: spline methods evaluate the cached
spline at the strike; Heston methods price at the strike with the cached
parameters and invert the price to an implied volatility, seeded with `v0`.
Rows handled by neither branch append nothing. -/
def serve_one (ext : Externals) (method : String) (S : ℚ)
    (cache : List (Date × SmileFitEntry)) (daily : Date → Option SmileRow)
    (date : Date) (K_target cpv : ℚ) : Except String (List ℚ) :=
  match daily date with
  | none => Except.error "KeyError: dates not in Δ_σ_daily index"
  | some row =>
    if method = "univariate_spline" ∨ method = "cubic_spline" then
      match dictLookup cache date with
      | none => Except.error "KeyError: date not in K_σ_daily_smile_func"
      | some (SmileFitEntry.splineUnivariate Ks σs) =>
          Except.ok [ext.spline_univariate_eval Ks σs K_target]
      | some (SmileFitEntry.splineCubic Ks σs) =>
          Except.ok [ext.spline_cubic_eval Ks σs K_target]
      | some (SmileFitEntry.heston _) => Except.error "TypeError: tuple is not callable"
    else if method.take 6 = "heston" then
      match dictLookup cache date with
      | none => Except.error "KeyError: date not in K_σ_daily_smile_func"
      | some (SmileFitEntry.heston fit) =>
          let tau := row.tenor_years
          let r_f := row.foreign_ccy_continuously_compounded_zero_rate
          let r_d := row.domestic_ccy_continuously_compounded_zero_rate
          if method = "heston_analytical_1993" then
            let X := ext.heston1993_price_fx_vanilla_european S tau r_f r_d cpv K_target
              fit.v0 fit.vv fit.kappa fit.theta fit.rho fit.lambda_
            Except.ok [ext.gk_solve_implied_σ S tau r_f r_d cpv K_target X fit.v0]
          else if method = "heston_carr_madan_gauss_kronrod_quadrature" then
            let X := ext.heston_carr_madan_fx_vanilla_european S tau r_f r_d cpv K_target
              fit.v0 fit.vv fit.kappa fit.theta fit.rho 0
            Except.ok [ext.gk_solve_implied_σ S tau r_f r_d cpv K_target X fit.v0]
          else if method = "heston_carr_madan_fft_w_simpsons" then
            let X := ext.heston_carr_madan_fx_vanilla_european S tau r_f r_d cpv K_target
              fit.v0 fit.vv fit.kappa fit.theta fit.rho 1
            Except.ok [ext.gk_solve_implied_σ S tau r_f r_d cpv K_target X fit.v0]
          else Except.error "NameError: name X is not defined"
      | some _ => Except.error "TypeError: cannot unpack non-tuple fit"
    else Except.ok []

/-- Embedding of `FXVolatilitySurface.interp_σ_surface` (lines 355-455).
Asserts equal shapes of the three parallel arrays; materialises the daily
rows for the (unique) query dates (a missing date raises `KeyError` from
`.loc`); runs the fitting loop, threading the smile-fit cache; then serves
one implied volatility per query row.  The updated surface carries the grown
cache — the only attribute the method assigns. -/
def interp_σ_surface (ext : Externals) (s : FXVolatilitySurface)
    (dates : List Date) (K cp : List ℚ) :
    Except String (FXVolatilitySurface × List ℚ) :=
  if dates.length ≠ K.length then
    Except.error "AssertionError: dates.shape == K.shape"
  else if dates.length ≠ cp.length then
    Except.error "AssertionError: dates.shape == cp.shape"
  else
    match exceptMapM (fun d =>
        match s.Δ_σ_daily d with
        | some row => Except.ok (d, row)
        | none => Except.error "KeyError: dates not in Δ_σ_daily index") dates.dedup with
    | Except.error e => Except.error e
    | Except.ok uniqueRows =>
      match exceptFoldl (fun c dr =>
          fit_smile_for_date ext s.smile_interpolation_method s.fx_spot_rate dr.2 dr.1 c)
          s.K_σ_daily_smile_func uniqueRows with
      | Except.error e => Except.error e
      | Except.ok cache2 =>
        match exceptMapM (fun t =>
            serve_one ext s.smile_interpolation_method s.fx_spot_rate cache2 s.Δ_σ_daily
              t.1 t.2.1 t.2.2)
            (map3 (fun d k c => (d, k, c)) dates K cp) with
        | Except.error e => Except.error e
        | Except.ok parts =>
          Except.ok ({ s with K_σ_daily_smile_func := cache2 }, parts.flatten)

/-- The date-range mask of `price_fx_vanilla_european` (line 470) and
`simulate_fx_rate_path` (line 521): true on `[min pillar date, max pillar
date]`; with an empty pillar index the `NaT` comparisons are all false. -/
def pillar_inRange (pillarDates : List Date) (d : Date) : Bool :=
  match pillarDates.min?, pillarDates.max? with
  | some mn, some mx => decide (mn ≤ d) && decide (d ≤ mx)
  | _, _ => false

/-- The masked assignment `σ[mask] = vals` into an array prefilled with NaN
(modelled as `none`). -/
def scatterσ : List Date → (Date → Bool) → List ℚ → List (Option ℚ)
  | [], _, _ => []
  | d :: ds, p, vals =>
    if p d then vals.head? :: scatterσ ds p vals.tail
    else none :: scatterσ ds p vals

/-- The external vectorised Garman-Kohlhagen pricer applied elementwise; a
NaN volatility (`none`) yields a NaN price (`none`). -/
def gk_price_vec (ext : Externals) (S : ℚ) :
    List ℚ → List ℚ → List ℚ → List ℚ → List ℚ → List (Option ℚ) → List ℚ →
      List (Option ℚ)
  | tau :: taus, rf :: rfs, rd :: rds, c :: cs, k :: ks, σo :: σs, f :: fs =>
      (σo.map fun σv => ext.gk_price S tau rf rd c k σv f) ::
        gk_price_vec ext S taus rfs rds cs ks σs fs
  | _, _, _, _, _, _, _ => []

/-- The results dictionary of `price_fx_vanilla_european`: the option values
from `gk_price` and the `market_data_inputs` frame `{σ, r_f, r_d, F}`. -/
structure PriceResults where
  option_value : List (Option ℚ)
  market_data_σ : List (Option ℚ)
  market_data_r_f : List ℚ
  market_data_r_d : List ℚ
  market_data_F : List ℚ

/-- Embedding of `FXVolatilitySurface.price_fx_vanilla_european`
(lines 457-494).  Asserts equal shapes; builds the in-range mask; prefills
the volatility array with NaN; when the mask has any hit, calls
`interp_σ_surface` on the masked dates — but, as in the source, with the
full-length `K` and `cp` arrays — and scatters the result back; then gathers
rates and forwards for all dates and prices via the external pricer. -/
def price_fx_vanilla_european (ext : Externals) (s : FXVolatilitySurface)
    (expiry_dates : List Date) (K cp : List ℚ)
    (analytical_greeks_flag intrinsic_time_split_flag : Bool) :
    Except String (FXVolatilitySurface × PriceResults) :=
  if expiry_dates.length ≠ K.length then
    Except.error "AssertionError: expiry_datetimeindex.shape == K.shape"
  else if expiry_dates.length ≠ cp.length then
    Except.error "AssertionError: expiry_datetimeindex.shape == cp.shape"
  else
    match (if (expiry_dates.map (pillar_inRange s.σ_pillar_dates)).any id then
        match interp_σ_surface ext s
            (expiry_dates.filter (pillar_inRange s.σ_pillar_dates)) K cp with
        | Except.error e => Except.error e
        | Except.ok (s2, vals) =>
            Except.ok (s2, scatterσ expiry_dates (pillar_inRange s.σ_pillar_dates) vals)
      else Except.ok (s, expiry_dates.map fun _ => (none : Option ℚ))) with
    | Except.error e => Except.error e
    | Except.ok (s2, σ) =>
      let r_f := expiry_dates.map s.foreign_zero_rate
      let r_d := expiry_dates.map s.domestic_zero_rate
      let F := expiry_dates.map s.fx_forward_interp
      let tau := expiry_dates.map s.year_fraction
      Except.ok (s2,
        { option_value := gk_price_vec ext s.fx_spot_rate tau r_f r_d cp K σ F
          market_data_σ := σ
          market_data_r_f := r_f
          market_data_r_d := r_d
          market_data_F := F })


/-- Market-data diagnostics frame assembled by the GBM branch of
`simulate_fx_rate_path` (lines 534-542), with the inserted leading entries
(`curve_date`, `tau = 0`, `dt = 0`, the spot rate, NaN drift, the first ATM
volatility, NaN forward volatility). -/
structure GbmMarketDataInputs where
  dates : List Date
  tau : List ℝ
  dt : List ℝ
  fx_forward_rates : List ℝ
  drift : List FVal
  atm_volatility : List FVal
  forward_atm_volatility : List FVal

/-- The results dictionary of `simulate_fx_rate_path`'s GBM branch. -/
structure SimulateResults where
  gbm_monte_carlo_market_data_inputs : GbmMarketDataInputs
  fx_rate_simulation_paths : List (List ℝ)

noncomputable section

/-- `np.log` on a float: `log 0 = -inf`, `log x = nan` for `x < 0`. -/
def flog (x : ℝ) : FVal :=
  if x = 0 then FVal.neginf else if x < 0 then FVal.nan else FVal.val (Real.log x)

/-- Embedding of `FXVolatilitySurface.simulate_fx_rate_path` (lines 497-556).
Only `method == 'geometric_brownian_motion'` is handled: the branch builds
period drifts from log forward-rate ratios, looks up the ATM volatility over
the pillar-date range mask (NaN outside), derives period forward volatilities
via `forward_volatility` (overwriting the first entry with the first ATM
volatility), and delegates path generation to the external collaborators.
For any other method the function falls through its trailing `if` and
returns Python's implicit `None`, raising nothing. -/
def simulate_fx_rate_path (ext : Externals) (s : FXVolatilitySurface)
    (date_grid : Option (List Date)) (nb_of_simulations : Nat)
    (flag_apply_antithetic_variates : Bool) (method : String) :
    Except String (Option SimulateResults) :=
  if method = "geometric_brownian_motion" then
    let grid := date_grid.getD s.σ_pillar_dates
    let tau : List ℝ := grid.map fun d => ((s.year_fraction d : ℚ) : ℝ)
    let tau0 : List ℝ := 0 :: tau
    let dt : List ℝ := map2 (fun a b => a - b) tau tau0.dropLast
    let F2 : List ℝ := grid.map fun d => ((s.fx_forward_interp d : ℚ) : ℝ)
    let F1 : List ℝ := ((s.fx_spot_rate : ℚ) : ℝ) :: F2.dropLast
    let period_drift : List FVal :=
      map3 (fun f2 f1 dtv => FVal.div (flog (f2 / f1)) (FVal.val dtv)) F2 F1 dt
    match exceptMapM (fun d =>
        if pillar_inRange s.σ_pillar_dates d then
          match s.Δ_σ_daily d with
          | some row => Except.ok (FVal.val ((row.σ_atmΔneutral : ℚ) : ℝ))
          | none => Except.error "KeyError: date not in Δ_σ_daily index"
        else Except.ok FVal.nan) grid with
    | Except.error e => Except.error e
    | Except.ok σ_atm =>
      match σ_atm with
      | [] => Except.error "IndexError: index 0 is out of bounds"
      | a0 :: _ =>
        let σ_atm_t1 : List FVal := a0 :: σ_atm.dropLast
        match forward_volatility (tau0.dropLast.map FVal.val) σ_atm_t1
            (tau.map FVal.val) σ_atm with
        | Except.error e => Except.error e
        | Except.ok σ_forward0 =>
          let σ_forward : List FVal :=
            match σ_forward0 with
            | [] => []
            | _ :: rest => a0 :: rest
          let rand_nbs := ext.generate_rand_nbs grid.length nb_of_simulations
            flag_apply_antithetic_variates
          let paths := ext.simulate_gbm_path ((s.fx_spot_rate : ℚ) : ℝ) period_drift
            σ_forward dt rand_nbs
          Except.ok (some
            { gbm_monte_carlo_market_data_inputs :=
                { dates := s.curve_date :: grid
                  tau := tau0
                  dt := 0 :: dt
                  fx_forward_rates := ((s.fx_spot_rate : ℚ) : ℝ) :: F2
                  drift := FVal.nan :: period_drift
                  atm_volatility := a0 :: σ_atm
                  forward_atm_volatility := FVal.nan :: σ_forward }
              fx_rate_simulation_paths := paths })
  else
    Except.ok none

end

/-- Concrete external collaborators for the closed theorems: every
collaborator returns a fixed value (the embedded control flow under test
never depends on these results except through the Heston `SSE` gate). -/
def extTest : Externals :=
  { gk_solve_strike := fun _ _ _ _ _ _ _ _ => [3/5, 2/3, 7/10]
    heston_fit_vanilla_fx_smile := fun _ _ _ _ _ _ _ _ _ =>
      { v0 := 1/100, vv := 1/10, kappa := 1, theta := 1/100, rho := 0, lambda_ := 0,
        IV := [1/10, 1/10, 1/10], SSE := 0 }
    spline_univariate_eval := fun _ _ _ => 1/10
    spline_cubic_eval := fun _ _ _ => 1/10
    heston1993_price_fx_vanilla_european := fun _ _ _ _ _ _ _ _ _ _ _ _ => 1/100
    heston_carr_madan_fx_vanilla_european := fun _ _ _ _ _ _ _ _ _ _ _ _ => 1/100
    gk_solve_implied_σ := fun _ _ _ _ _ _ _ _ => 1/10
    gk_price := fun _ _ _ _ _ _ _ _ => 1/100
    generate_rand_nbs := fun _ _ _ => []
    simulate_gbm_path := fun _ _ _ _ _ => [] }

/-- Concrete external collaborators whose Heston calibration reports a sum
of squared errors of exactly 0.001. -/
def extTestBoundarySSE : Externals :=
  { extTest with
    heston_fit_vanilla_fx_smile := fun _ _ _ _ _ _ _ _ _ =>
      { v0 := 1/100, vv := 1/10, kappa := 1, theta := 1/100, rho := 0, lambda_ := 0,
        IV := [1/10, 1/10, 1/10], SSE := 1/1000 } }

/-- A concrete daily-grid row. -/
def rowTest : SmileRow :=
  { tenor_years := 1
    foreign_ccy_continuously_compounded_zero_rate := 466/10000
    domestic_ccy_continuously_compounded_zero_rate := 5381/100000
    fx_forward_rate := 6629/10000
    Δ_convention := "regular_forward_Δ"
    σ_25Δput := 1/10
    σ_atmΔneutral := 98408/1000000
    σ_25Δcall := 1/10 }

/-- A concrete surface with pillar dates 10 and 20, a daily grid covering
exactly that range, the cubic-spline smile method, and an empty fit cache. -/
def surfTest : FXVolatilitySurface :=
  { curve_date := 0
    curve_ccy := "audusd"
    foreign_ccy := "aud"
    domestic_ccy := "usd"
    spot_date := 2
    fx_spot_rate := 6629/10000
    year_fraction := fun d => (d : ℚ) / 365
    foreign_zero_rate := fun _ => 466/10000
    domestic_zero_rate := fun _ => 5381/100000
    fx_forward_interp := fun _ => 6629/10000
    σ_pillar_dates := [10, 20]
    Δ_σ_daily := fun d => if 10 ≤ d ∧ d ≤ 20 then some rowTest else none
    smile_interpolation_method := "cubic_spline"
    K_σ_daily_smile_func := [] }

/-- `surfTest` with one smile fit already cached at date 12. -/
def surfTestCached : FXVolatilitySurface :=
  { surfTest with
    K_σ_daily_smile_func :=
      [(12, SmileFitEntry.splineCubic [3/5, 2/3, 7/10] [1/10, 98408/1000000, 1/10])] }

namespace FVal

lemma sub_val (a b : ℝ) : sub (val a) (val b) = val (a - b) := rfl

lemma mul_val (a b : ℝ) : mul (val a) (val b) = val (a * b) := rfl

lemma add_val (a b : ℝ) : add (val a) (val b) = val (a + b) := rfl

lemma pow2_val (a : ℝ) : pow2 (val a) = val (a ^ 2) := rfl

lemma div_val (a b : ℝ) (hb : b ≠ 0) : div (val a) (val b) = val (a / b) := by
  simp [div, hb]

lemma div_zero_zero : div (val 0) (val 0) = nan := by simp [div]

lemma isNeg_val_false {a : ℝ} (h : 0 ≤ a) : isNeg (val a) = false := by
  simp only [isNeg]
  exact decide_eq_false (not_lt.2 h)

lemma isNeg_val_true {a : ℝ} (h : a < 0) : isNeg (val a) = true := by
  simp only [isNeg]
  exact decide_eq_true h

lemma isZero_val_false {a : ℝ} (h : a ≠ 0) : isZero (val a) = false := by
  simp only [isZero]
  exact decide_eq_false h

lemma isZero_val_true : isZero (val 0) = true := by simp [isZero]

lemma isNeg_nan : isNeg nan = false := rfl

lemma isZero_nan : isZero nan = false := rfl

lemma sqrt_val {a : ℝ} (h : 0 ≤ a) : sqrt (val a) = val (Real.sqrt a) := by
  simp [sqrt, not_lt.2 h]

lemma sqrt_nan : sqrt nan = nan := rfl

lemma pow2_nan : pow2 nan = nan := rfl

lemma mul_nan_left (x : FVal) : mul nan x = nan := by cases x <;> rfl

lemma mul_nan_right (x : FVal) : mul x nan = nan := by cases x <;> rfl

lemma add_nan_right (x : FVal) : add x nan = nan := by cases x <;> rfl

lemma add_nan_left (x : FVal) : add nan x = nan := by cases x <;> rfl

lemma div_nan_left (x : FVal) : div nan x = nan := by cases x <;> rfl

end FVal

lemma map2_map_same {α β γ δ : Type} (f : β → γ → δ) (g : α → β) (h : α → γ) (l : List α) :
    map2 f (l.map g) (l.map h) = l.map (fun x => f (g x) (h x)) := by
  induction l with
  | nil => rfl
  | cons a as ih => simp [map2, List.map, ih]

lemma map4_map_same {α β γ δ ε ζ : Type} (f : β → γ → δ → ε → ζ)
    (g1 : α → β) (g2 : α → γ) (g3 : α → δ) (g4 : α → ε) (l : List α) :
    map4 f (l.map g1) (l.map g2) (l.map g3) (l.map g4)
      = l.map (fun x => f (g1 x) (g2 x) (g3 x) (g4 x)) := by
  induction l with
  | nil => rfl
  | cons a as ih => simp [map4, List.map, ih]


/-- Any-check helper: a mapped list has `any p = false` when `p` is false on
every image element. -/
lemma any_map_eq_false {α β : Type} {l : List α} {f : α → β} {p : β → Bool}
    (h : ∀ a ∈ l, p (f a) = false) : (l.map f).any p = false := by
  rw [List.any_eq_false]
  intro x hx
  obtain ⟨a, ha, rfl⟩ := List.mem_map.1 hx
  simp [h a ha]

/-- With distinct bracket times and nonnegative forward variances, the
vectorised `forward_volatility` returns the elementwise square root of
`(σ_t2² t2 − σ_t1² t1) / (t2 − t1)`. -/
lemma forward_volatility_vals (t1 t2 : ℝ) (σp : List (ℝ × ℝ)) (h12 : t1 < t2)
    (hnn : ∀ pr ∈ σp, 0 ≤ pr.2 ^ 2 * t2 - pr.1 ^ 2 * t1) :
    forward_volatility (σp.map fun _ => FVal.val t1) (σp.map fun pr => FVal.val pr.1)
        (σp.map fun _ => FVal.val t2) (σp.map fun pr => FVal.val pr.2)
      = Except.ok (σp.map fun pr =>
          FVal.val (Real.sqrt ((pr.2 ^ 2 * t2 - pr.1 ^ 2 * t1) / (t2 - t1)))) := by
  have hτ : (0:ℝ) < t2 - t1 := sub_pos.2 h12
  have hτ0 : t2 - t1 ≠ 0 := ne_of_gt hτ
  unfold forward_volatility
  rw [map2_map_same]
  simp only [FVal.sub_val]
  rw [List.map_map, List.map_map, map2_map_same, map2_map_same, map2_map_same, map2_map_same]
  simp only [Function.comp, FVal.pow2_val, FVal.mul_val, FVal.sub_val]
  have hdv : ∀ a : ℝ, FVal.div (FVal.val a) (FVal.val (t2 - t1)) = FVal.val (a / (t2 - t1)) :=
    fun a => FVal.div_val a _ hτ0
  simp only [hdv]
  have hzn : (σp.map fun _ => FVal.val (t2 - t1)).any FVal.isNeg = false :=
    any_map_eq_false (fun a _ => FVal.isNeg_val_false hτ.le)
  rw [hzn]
  have hrn : (σp.map fun pr =>
      FVal.val ((pr.2 ^ 2 * t2 - pr.1 ^ 2 * t1) / (t2 - t1))).any FVal.isNeg = false :=
    any_map_eq_false (fun pr hpr => FVal.isNeg_val_false (div_nonneg (hnn pr hpr) hτ.le))
  rw [hrn]
  simp only [Bool.and_false, if_neg Bool.false_ne_true, List.map_map]
  congr 1
  apply List.map_congr_left
  intro pr hpr
  simp [Function.comp, FVal.sqrt_val (div_nonneg (hnn pr hpr) hτ.le)]

/-- Under the same conditions, together with `0 ≤ t1 ≤ t` and `0 < t`, the
vectorised `flat_forward_interp` returns, per delta bucket, the square root
of `(σ_t1² t1 + σ_fwd² (t − t1)) / t` where `σ_fwd²` is the forward
variance `(σ_t2² t2 − σ_t1² t1) / (t2 − t1)`. -/
lemma flat_forward_interp_vals (t1 t2 t : ℝ) (σp : List (ℝ × ℝ)) (h12 : t1 < t2)
    (h0 : 0 ≤ t1) (hle : t1 ≤ t) (ht : 0 < t)
    (hnn : ∀ pr ∈ σp, 0 ≤ pr.2 ^ 2 * t2 - pr.1 ^ 2 * t1) :
    flat_forward_interp (σp.map fun _ => FVal.val t1) (σp.map fun pr => FVal.val pr.1)
        (σp.map fun _ => FVal.val t2) (σp.map fun pr => FVal.val pr.2)
        (σp.map fun _ => FVal.val t)
      = Except.ok (σp.map fun pr =>
          FVal.val (Real.sqrt ((pr.1 ^ 2 * t1 +
            ((pr.2 ^ 2 * t2 - pr.1 ^ 2 * t1) / (t2 - t1)) * (t - t1)) / t))) := by
  have hτ : (0:ℝ) < t2 - t1 := sub_pos.2 h12
  unfold flat_forward_interp
  rw [forward_volatility_vals t1 t2 σp h12 hnn]
  dsimp only
  rw [map4_map_same]
  congr 1
  apply List.map_congr_left
  intro pr hpr
  have hF : 0 ≤ (pr.2 ^ 2 * t2 - pr.1 ^ 2 * t1) / (t2 - t1) :=
    div_nonneg (hnn pr hpr) hτ.le
  have hg : Real.sqrt ((pr.2 ^ 2 * t2 - pr.1 ^ 2 * t1) / (t2 - t1)) ^ 2
      = (pr.2 ^ 2 * t2 - pr.1 ^ 2 * t1) / (t2 - t1) := Real.sq_sqrt hF
  have hrad : 0 ≤ (pr.1 ^ 2 * t1 +
      ((pr.2 ^ 2 * t2 - pr.1 ^ 2 * t1) / (t2 - t1)) * (t - t1)) / t :=
    div_nonneg (add_nonneg (mul_nonneg (sq_nonneg _) h0)
      (mul_nonneg hF (sub_nonneg.2 hle))) ht.le
  rw [FVal.pow2_val, FVal.pow2_val, FVal.sub_val, FVal.mul_val, FVal.mul_val, FVal.add_val,
    hg, FVal.div_val _ _ (ne_of_gt ht), FVal.sqrt_val hrad]

/-- When the two bracketing pillars coincide (equal times and equal smiles),
`forward_volatility` hits `0 / 0` in every bucket and returns NaN everywhere
(no exception: the `tau == 0` branch only emits a warning). -/
lemma forward_volatility_self (t : ℝ) (σs : List ℝ) :
    forward_volatility (σs.map fun _ => FVal.val t) (σs.map FVal.val)
        (σs.map fun _ => FVal.val t) (σs.map FVal.val)
      = Except.ok (σs.map fun _ => FVal.nan) := by
  unfold forward_volatility
  rw [map2_map_same]
  simp only [FVal.sub_val, sub_self]
  have hzn : (σs.map fun _ => FVal.val (0:ℝ)).any FVal.isNeg = false :=
    any_map_eq_false (fun a _ => FVal.isNeg_val_false le_rfl)
  rw [hzn]
  rw [List.map_map, map2_map_same, map2_map_same, map2_map_same]
  simp only [Function.comp, FVal.pow2_val, FVal.mul_val, FVal.sub_val, sub_self,
    FVal.div_zero_zero]
  have hrn : (σs.map fun _ => FVal.nan).any FVal.isNeg = false :=
    any_map_eq_false (fun a _ => rfl)
  rw [hrn]
  simp only [Bool.and_false, if_neg Bool.false_ne_true, List.map_map]
  rfl

/-- With coinciding brackets, `flat_forward_interp` evaluates to NaN in every
bucket (the NaN forward volatility propagates), without raising. -/
lemma flat_forward_interp_self (t tq : ℝ) (σs : List ℝ) :
    flat_forward_interp (σs.map fun _ => FVal.val t) (σs.map FVal.val)
        (σs.map fun _ => FVal.val t) (σs.map FVal.val) (σs.map fun _ => FVal.val tq)
      = Except.ok (σs.map fun _ => FVal.nan) := by
  unfold flat_forward_interp
  rw [forward_volatility_self]
  dsimp only
  rw [map4_map_same]
  congr 1

/-- If a grid date's backward and forward brackets are the same pillar, the
daily-grid row is the pillar's own smile, copied verbatim. -/
lemma dailyGridRow_self {ps : List Pillar} {yf : Date → ℝ} {d : Date} {pl : Pillar}
    (hb : lookupBackward ps d = some pl) (hf : lookupForward ps d = some pl) :
    dailyGridRow ps yf d = Except.ok (pl.σs.map FVal.val) := by
  unfold dailyGridRow
  rw [hb, hf]
  dsimp only
  rw [flat_forward_interp_self]
  simp

/-- In a pillar table with strictly increasing tenor dates, the backward
bracket at a pillar's own date is that pillar. -/
lemma lookupBackward_self {ps : List Pillar} {p : Pillar}
    (hs : ps.Pairwise (fun a b => a.tenor_date < b.tenor_date)) (hp : p ∈ ps) :
    lookupBackward ps p.tenor_date = some p := by
  induction ps with
  | nil => cases hp
  | cons q rest ih =>
    rw [List.pairwise_cons] at hs
    obtain ⟨hq, hrest⟩ := hs
    unfold lookupBackward
    rcases List.mem_cons.1 hp with hpq | hpr
    · subst hpq
      rw [List.filter_cons_of_pos (by simp)]
      have hnil : rest.filter (fun r => decide (r.tenor_date ≤ p.tenor_date)) = [] := by
        rw [List.filter_eq_nil_iff]
        intro r hr
        simp [not_le.2 (hq r hr)]
      rw [hnil]
      rfl
    · have hqp : q.tenor_date < p.tenor_date := hq p hpr
      rw [List.filter_cons_of_pos (by simp [hqp.le])]
      have hrec := ih hrest hpr
      unfold lookupBackward at hrec
      cases hl : rest.filter (fun r => decide (r.tenor_date ≤ p.tenor_date)) with
      | nil => rw [hl] at hrec; cases hrec
      | cons b bs =>
        rw [hl] at hrec
        rw [List.getLast?_cons_cons]
        exact hrec

/-- In a pillar table with strictly increasing tenor dates, the forward
bracket at a pillar's own date is that pillar. -/
lemma lookupForward_self {ps : List Pillar} {p : Pillar}
    (hs : ps.Pairwise (fun a b => a.tenor_date < b.tenor_date)) (hp : p ∈ ps) :
    lookupForward ps p.tenor_date = some p := by
  induction ps with
  | nil => cases hp
  | cons q rest ih =>
    rw [List.pairwise_cons] at hs
    obtain ⟨hq, hrest⟩ := hs
    unfold lookupForward
    rcases List.mem_cons.1 hp with hpq | hpr
    · subst hpq
      rw [List.filter_cons_of_pos (by simp)]
      rfl
    · have hqp : q.tenor_date < p.tenor_date := hq p hpr
      rw [List.filter_cons_of_neg (by simp [not_le.2 hqp])]
      exact ih hrest hpr

/-- Propagation: `flat_forward_interp` fails exactly when its call to
`forward_volatility` fails. -/
lemma flat_forward_interp_error {t1 σ1 t2 σ2 t : List FVal} {e : String}
    (h : forward_volatility t1 σ1 t2 σ2 = Except.error e) :
    flat_forward_interp t1 σ1 t2 σ2 t = Except.error e := by
  unfold flat_forward_interp
  rw [h]

/-- With three delta buckets, distinct bracket times, and a negative forward
variance in at least one bucket, `forward_volatility` raises the
negative-variance `ValueError`. -/
lemma forward_volatility_triple_neg (t1 t2 a1 b1 c1 a2 b2 c2 : ℝ) (h12 : t1 < t2)
    (hneg : a2 ^ 2 * t2 - a1 ^ 2 * t1 < 0 ∨ b2 ^ 2 * t2 - b1 ^ 2 * t1 < 0 ∨
      c2 ^ 2 * t2 - c1 ^ 2 * t1 < 0) :
    forward_volatility [FVal.val t1, FVal.val t1, FVal.val t1]
        [FVal.val a1, FVal.val b1, FVal.val c1]
        [FVal.val t2, FVal.val t2, FVal.val t2]
        [FVal.val a2, FVal.val b2, FVal.val c2]
      = Except.error "Negative value encountered under square root." := by
  have hτ : (0:ℝ) < t2 - t1 := sub_pos.2 h12
  have hτ0 : t2 - t1 ≠ 0 := ne_of_gt hτ
  unfold forward_volatility
  dsimp only [map2, List.map]
  simp only [FVal.sub_val, FVal.mul_val, FVal.pow2_val]
  simp only [List.any_cons, List.any_nil, FVal.isNeg_val_false hτ.le, Bool.or_false,
    Bool.or_self, Bool.and_false, if_neg Bool.false_ne_true]
  have hdv : ∀ x : ℝ, FVal.div (FVal.val x) (FVal.val (t2 - t1)) = FVal.val (x / (t2 - t1)) :=
    fun x => FVal.div_val x _ hτ0
  simp only [hdv]
  rcases hneg with h | h | h
  · simp [FVal.isNeg_val_true (div_neg_of_neg_of_pos h hτ)]
  · simp [FVal.isNeg_val_true (div_neg_of_neg_of_pos h hτ)]
  · simp [FVal.isNeg_val_true (div_neg_of_neg_of_pos h hτ)]

/-- C2.  For bracket times `t1 < t2`, bracket volatilities per delta bucket
(three buckets, as in the daily grid's smile columns), and a query time `t`
with `0 ≤ t1 ≤ t`, `0 < t` and nonnegative forward variances, the daily-grid
interpolation `flat_forward_interp` returns per bucket a volatility `σ(t)`
with `σ(t)² = (σ(t1)² t1 + σ_fwd² (t − t1)) / t`, where
`σ_fwd² = (σ(t2)² t2 − σ(t1)² t1) / (t2 − t1)`, independently per bucket. -/
theorem C2_flat_forward_formula (t1 t2 t pa pb pc qa qb qc : ℝ)
    (h12 : t1 < t2) (h0 : 0 ≤ t1) (hle : t1 ≤ t) (ht : 0 < t)
    (hna : 0 ≤ qa ^ 2 * t2 - pa ^ 2 * t1) (hnb : 0 ≤ qb ^ 2 * t2 - pb ^ 2 * t1)
    (hnc : 0 ≤ qc ^ 2 * t2 - pc ^ 2 * t1) :
    ∃ sa sb sc,
      flat_forward_interp [FVal.val t1, FVal.val t1, FVal.val t1]
          [FVal.val pa, FVal.val pb, FVal.val pc]
          [FVal.val t2, FVal.val t2, FVal.val t2]
          [FVal.val qa, FVal.val qb, FVal.val qc]
          [FVal.val t, FVal.val t, FVal.val t]
        = Except.ok [FVal.val sa, FVal.val sb, FVal.val sc] ∧
      (0 ≤ sa ∧ sa ^ 2 = (pa ^ 2 * t1 + ((qa ^ 2 * t2 - pa ^ 2 * t1) / (t2 - t1)) * (t - t1)) / t) ∧
      (0 ≤ sb ∧ sb ^ 2 = (pb ^ 2 * t1 + ((qb ^ 2 * t2 - pb ^ 2 * t1) / (t2 - t1)) * (t - t1)) / t) ∧
      (0 ≤ sc ∧ sc ^ 2 = (pc ^ 2 * t1 + ((qc ^ 2 * t2 - pc ^ 2 * t1) / (t2 - t1)) * (t - t1)) / t) := by
  have hτ : (0:ℝ) < t2 - t1 := sub_pos.2 h12
  have hnn : ∀ pr ∈ [((pa:ℝ), (qa:ℝ)), (pb, qb), (pc, qc)],
      0 ≤ pr.2 ^ 2 * t2 - pr.1 ^ 2 * t1 := by
    intro pr hpr
    simp only [List.mem_cons, List.not_mem_nil, or_false] at hpr
    rcases hpr with rfl | rfl | rfl
    · exact hna
    · exact hnb
    · exact hnc
  have h := flat_forward_interp_vals t1 t2 t [(pa, qa), (pb, qb), (pc, qc)] h12 h0 hle ht hnn
  simp only [List.map_cons, List.map_nil] at h
  have hrad : ∀ p q : ℝ, 0 ≤ q ^ 2 * t2 - p ^ 2 * t1 →
      0 ≤ (p ^ 2 * t1 + ((q ^ 2 * t2 - p ^ 2 * t1) / (t2 - t1)) * (t - t1)) / t :=
    fun p q hn => div_nonneg (add_nonneg (mul_nonneg (sq_nonneg _) h0)
      (mul_nonneg (div_nonneg hn hτ.le) (sub_nonneg.2 hle))) ht.le
  exact ⟨_, _, _, h,
    ⟨Real.sqrt_nonneg _, Real.sq_sqrt (hrad pa qa hna)⟩,
    ⟨Real.sqrt_nonneg _, Real.sq_sqrt (hrad pb qb hnb)⟩,
    ⟨Real.sqrt_nonneg _, Real.sq_sqrt (hrad pc qc hnc)⟩⟩

/-- Witness for C2 at `t1 = 0`, `t2 = 1`, `t = 1`, all bracket volatilities
equal to 1. -/
theorem C2_flat_forward_formula_witness :
    ((0:ℝ) < 1 ∧ (0:ℝ) ≤ 0 ∧ (0:ℝ) ≤ 1 ∧ (0:ℝ) < 1 ∧
      0 ≤ (1:ℝ) ^ 2 * 1 - 1 ^ 2 * 0) ∧
    (∃ sa sb sc,
      flat_forward_interp [FVal.val 0, FVal.val 0, FVal.val 0]
          [FVal.val 1, FVal.val 1, FVal.val 1]
          [FVal.val 1, FVal.val 1, FVal.val 1]
          [FVal.val 1, FVal.val 1, FVal.val 1]
          [FVal.val 1, FVal.val 1, FVal.val 1]
        = Except.ok [FVal.val sa, FVal.val sb, FVal.val sc] ∧
      (0 ≤ sa ∧ sa ^ 2 = ((1:ℝ) ^ 2 * 0 + (((1:ℝ) ^ 2 * 1 - 1 ^ 2 * 0) / (1 - 0)) * (1 - 0)) / 1) ∧
      (0 ≤ sb ∧ sb ^ 2 = ((1:ℝ) ^ 2 * 0 + (((1:ℝ) ^ 2 * 1 - 1 ^ 2 * 0) / (1 - 0)) * (1 - 0)) / 1) ∧
      (0 ≤ sc ∧ sc ^ 2 = ((1:ℝ) ^ 2 * 0 + (((1:ℝ) ^ 2 * 1 - 1 ^ 2 * 0) / (1 - 0)) * (1 - 0)) / 1)) :=
  ⟨⟨by norm_num, le_refl 0, by norm_num, by norm_num, by norm_num⟩,
    C2_flat_forward_formula 0 1 1 1 1 1 1 1 1 (by norm_num) (le_refl 0) (by norm_num)
      (by norm_num) (by norm_num) (by norm_num) (by norm_num)⟩

/-- C4.  For every pillar of a pillar table with strictly increasing tenor
dates, the daily-grid row built at that pillar's own date is exactly the
pillar's quoted smile, for every delta bucket: when the two bracketing
pillars coincide, `np.where(t1 != t2, ...)` copies `σ_t1` directly and no
flat-forward formula result is used. -/
theorem C4_pillar_passthrough (ps : List Pillar) (yf : Date → ℝ) (p : Pillar)
    (hs : ps.Pairwise (fun a b => a.tenor_date < b.tenor_date)) (hp : p ∈ ps) :
    dailyGridRow ps yf p.tenor_date = Except.ok (p.σs.map FVal.val) :=
  dailyGridRow_self (lookupBackward_self hs hp) (lookupForward_self hs hp)

/-- Witness for C4 on a one-pillar table. -/
theorem C4_pillar_passthrough_witness :
    ([({ tenor_date := 0, tenor_years := 1, σs := [1/10, 1/5, 3/10] } : Pillar)].Pairwise
        (fun a b => a.tenor_date < b.tenor_date)) ∧
    dailyGridRow [{ tenor_date := 0, tenor_years := 1, σs := [1/10, 1/5, 3/10] }]
        (fun _ => 1) 0
      = Except.ok ([(1:ℝ)/10, 1/5, 3/10].map FVal.val) :=
  ⟨by simp,
    C4_pillar_passthrough _ (fun _ => 1)
      { tenor_date := 0, tenor_years := 1, σs := [1/10, 1/5, 3/10] }
      (by simp) (by simp)⟩

/-- C5.  If the bracketing pillars of a grid date have `t1 < t2` but some
delta bucket has negative forward variance `σ(t2)² t2 − σ(t1)² t1 < 0`, the
daily-grid row construction fails with the negative-variance `ValueError`
instead of returning a NaN or complex value. -/
theorem C5_negative_variance_error (ps : List Pillar) (yf : Date → ℝ) (d : Date)
    (d1 d2 : Date) (t1 t2 a1 b1 c1 a2 b2 c2 : ℝ)
    (hb : lookupBackward ps d = some ⟨d1, t1, [a1, b1, c1]⟩)
    (hf : lookupForward ps d = some ⟨d2, t2, [a2, b2, c2]⟩)
    (h12 : t1 < t2)
    (hneg : a2 ^ 2 * t2 - a1 ^ 2 * t1 < 0 ∨ b2 ^ 2 * t2 - b1 ^ 2 * t1 < 0 ∨
      c2 ^ 2 * t2 - c1 ^ 2 * t1 < 0) :
    dailyGridRow ps yf d = Except.error "Negative value encountered under square root." := by
  unfold dailyGridRow
  rw [hb, hf]
  dsimp only [List.map]
  rw [flat_forward_interp_error (forward_volatility_triple_neg t1 t2 a1 b1 c1 a2 b2 c2 h12 hneg)]

/-- Witness for C5: a two-pillar table where the short pillar's volatility
(0.4) is inconsistent with the long pillar's (0.2). -/
theorem C5_negative_variance_error_witness :
    (lookupBackward [({ tenor_date := 0, tenor_years := 1, σs := [2/5, 2/5, 2/5] } : Pillar),
        { tenor_date := 10, tenor_years := 2, σs := [1/5, 1/5, 1/5] }] 5
      = some { tenor_date := 0, tenor_years := 1, σs := [2/5, 2/5, 2/5] }) ∧
    (lookupForward [({ tenor_date := 0, tenor_years := 1, σs := [2/5, 2/5, 2/5] } : Pillar),
        { tenor_date := 10, tenor_years := 2, σs := [1/5, 1/5, 1/5] }] 5
      = some { tenor_date := 10, tenor_years := 2, σs := [1/5, 1/5, 1/5] }) ∧
    ((1:ℝ) < 2) ∧ (((1:ℝ)/5) ^ 2 * 2 - ((2:ℝ)/5) ^ 2 * 1 < 0 ∨
      ((1:ℝ)/5) ^ 2 * 2 - ((2:ℝ)/5) ^ 2 * 1 < 0 ∨
      ((1:ℝ)/5) ^ 2 * 2 - ((2:ℝ)/5) ^ 2 * 1 < 0) ∧
    dailyGridRow [({ tenor_date := 0, tenor_years := 1, σs := [2/5, 2/5, 2/5] } : Pillar),
        { tenor_date := 10, tenor_years := 2, σs := [1/5, 1/5, 1/5] }] (fun _ => 1) 5
      = Except.error "Negative value encountered under square root." := by
  refine ⟨rfl, rfl, by norm_num, Or.inl (by norm_num), ?_⟩
  exact C5_negative_variance_error _ _ 5 0 10 1 2 (2/5) (2/5) (2/5) (1/5) (1/5) (1/5)
    rfl rfl (by norm_num) (Or.inr (Or.inl (by norm_num)))

/-- C6 counterexample.  `forward_volatility` called with `t2 == t1` (and
equal bracket volatilities, as the daily grid produces for coinciding
brackets) does return a value — `Except.ok [NaN]` — so the claim that it
"never returns a value when called with t2 == t1" (assertion-guarded) is
false: the source merely warns "NaN will be returned." and falls through to
the `0 / 0` division. -/
theorem C6_counterexample :
    forward_volatility [FVal.val 1] [FVal.val (1/10)] [FVal.val 1] [FVal.val (1/10)]
      = Except.ok [FVal.nan] := by
  have h := forward_volatility_self 1 [(1:ℝ)/10]
  simpa using h

/-- C6 amended.  When `t2 == t1` with equal total variances, the source
warns and returns NaN through the ordinary return path (no assertion and no
exception); in the daily-grid interpolation the coinciding-bracket case is
reached (`np.where` evaluates both branches eagerly) but its NaN result is
discarded and the pillar's own volatility is copied directly. -/
theorem C6_equal_brackets_nan_and_copy (t1 σ : ℝ) {ps : List Pillar} {yf : Date → ℝ}
    {d : Date} {pl : Pillar}
    (hb : lookupBackward ps d = some pl) (hf : lookupForward ps d = some pl) :
    forward_volatility [FVal.val t1] [FVal.val σ] [FVal.val t1] [FVal.val σ]
        = Except.ok [FVal.nan] ∧
    dailyGridRow ps yf d = Except.ok (pl.σs.map FVal.val) :=
  ⟨by simpa using forward_volatility_self t1 [σ], dailyGridRow_self hb hf⟩

/-- Witness for the amended C6 on a one-pillar table. -/
theorem C6_equal_brackets_nan_and_copy_witness :
    (lookupBackward [({ tenor_date := 0, tenor_years := 1, σs := [1/10] } : Pillar)] 0
      = some { tenor_date := 0, tenor_years := 1, σs := [1/10] }) ∧
    (lookupForward [({ tenor_date := 0, tenor_years := 1, σs := [1/10] } : Pillar)] 0
      = some { tenor_date := 0, tenor_years := 1, σs := [1/10] }) ∧
    (forward_volatility [FVal.val 2] [FVal.val (1/2)] [FVal.val 2] [FVal.val (1/2)]
        = Except.ok [FVal.nan] ∧
      dailyGridRow [({ tenor_date := 0, tenor_years := 1, σs := [1/10] } : Pillar)]
          (fun _ => 1) 0
        = Except.ok ([(1:ℝ)/10].map FVal.val)) :=
  ⟨rfl, rfl,
    @C6_equal_brackets_nan_and_copy 2 (1/2)
      [({ tenor_date := 0, tenor_years := 1, σs := [1/10] } : Pillar)] (fun _ => 1) 0
      { tenor_date := 0, tenor_years := 1, σs := [1/10] } rfl rfl⟩

/-- C7.  Variance-additivity round trip: for `0 ≤ t1 < t < t2`, `σ2 ≥ 0` and
nonnegative forward variance, interpolating `σt` at `t` from the bracket
`(t1, σ1), (t2, σ2)` and then applying `flat_forward_interp` to the bracket
`(t1, σ1), (t, σt)` at query time `t2` reconstructs `σ2` exactly. -/
theorem C7_variance_roundtrip (t1 t2 t σ1 σ2 : ℝ)
    (h0 : 0 ≤ t1) (h1t : t1 < t) (ht2 : t < t2) (hσ2 : 0 ≤ σ2)
    (hnn : 0 ≤ σ2 ^ 2 * t2 - σ1 ^ 2 * t1) :
    ∃ σt, flat_forward_interp [FVal.val t1] [FVal.val σ1] [FVal.val t2] [FVal.val σ2]
        [FVal.val t] = Except.ok [FVal.val σt] ∧
      flat_forward_interp [FVal.val t1] [FVal.val σ1] [FVal.val t] [FVal.val σt]
        [FVal.val t2] = Except.ok [FVal.val σ2] := by
  have h12 : t1 < t2 := h1t.trans ht2
  have ht : 0 < t := lt_of_le_of_lt h0 h1t
  have ht2p : 0 < t2 := ht.trans ht2
  have hτ : (0:ℝ) < t2 - t1 := sub_pos.2 h12
  have hτ1 : (0:ℝ) < t - t1 := sub_pos.2 h1t
  have hFnn : 0 ≤ (σ2 ^ 2 * t2 - σ1 ^ 2 * t1) / (t2 - t1) := div_nonneg hnn hτ.le
  have h1 := flat_forward_interp_vals t1 t2 t [(σ1, σ2)] h12 h0 h1t.le ht
    (by intro pr hpr; simp only [List.mem_singleton] at hpr; subst hpr; exact hnn)
  simp only [List.map_cons, List.map_nil] at h1
  have hrad : 0 ≤ (σ1 ^ 2 * t1 + ((σ2 ^ 2 * t2 - σ1 ^ 2 * t1) / (t2 - t1)) * (t - t1)) / t :=
    div_nonneg (add_nonneg (mul_nonneg (sq_nonneg _) h0) (mul_nonneg hFnn hτ1.le)) ht.le
  have hsq : Real.sqrt ((σ1 ^ 2 * t1 + ((σ2 ^ 2 * t2 - σ1 ^ 2 * t1) / (t2 - t1)) * (t - t1)) / t) ^ 2
      = (σ1 ^ 2 * t1 + ((σ2 ^ 2 * t2 - σ1 ^ 2 * t1) / (t2 - t1)) * (t - t1)) / t :=
    Real.sq_sqrt hrad
  set σt := Real.sqrt ((σ1 ^ 2 * t1 + ((σ2 ^ 2 * t2 - σ1 ^ 2 * t1) / (t2 - t1)) * (t - t1)) / t)
    with hσt
  have hnum : σt ^ 2 * t - σ1 ^ 2 * t1
      = ((σ2 ^ 2 * t2 - σ1 ^ 2 * t1) / (t2 - t1)) * (t - t1) := by
    rw [hsq, div_mul_cancel₀ _ (ne_of_gt ht)]
    ring
  have hnn2 : 0 ≤ σt ^ 2 * t - σ1 ^ 2 * t1 := by
    rw [hnum]
    exact mul_nonneg hFnn hτ1.le
  have h2 := flat_forward_interp_vals t1 t t2 [(σ1, σt)] h1t h0 h12.le ht2p
    (by intro pr hpr; simp only [List.mem_singleton] at hpr; subst hpr; exact hnn2)
  simp only [List.map_cons, List.map_nil] at h2
  have hF2 : (σt ^ 2 * t - σ1 ^ 2 * t1) / (t - t1) = (σ2 ^ 2 * t2 - σ1 ^ 2 * t1) / (t2 - t1) := by
    rw [hnum, mul_div_cancel_right₀ _ (ne_of_gt hτ1)]
  have hval : (σ1 ^ 2 * t1 + ((σt ^ 2 * t - σ1 ^ 2 * t1) / (t - t1)) * (t2 - t1)) / t2
      = σ2 ^ 2 := by
    rw [hF2, div_mul_cancel₀ _ (ne_of_gt hτ)]
    have hs : σ1 ^ 2 * t1 + (σ2 ^ 2 * t2 - σ1 ^ 2 * t1) = σ2 ^ 2 * t2 := by ring
    rw [hs, mul_div_cancel_right₀ _ (ne_of_gt ht2p)]
  rw [hval, Real.sqrt_sq hσ2] at h2
  exact ⟨σt, h1, h2⟩

/-- Witness for C7 at `t1 = 0`, `t = 1`, `t2 = 2`, `σ1 = σ2 = 1`. -/
theorem C7_variance_roundtrip_witness :
    ((0:ℝ) ≤ 0 ∧ (0:ℝ) < 1 ∧ (1:ℝ) < 2 ∧ (0:ℝ) ≤ 1 ∧
      0 ≤ (1:ℝ) ^ 2 * 2 - 1 ^ 2 * 0) ∧
    (∃ σt, flat_forward_interp [FVal.val 0] [FVal.val 1] [FVal.val 2] [FVal.val 1]
        [FVal.val 1] = Except.ok [FVal.val σt] ∧
      flat_forward_interp [FVal.val 0] [FVal.val 1] [FVal.val 1] [FVal.val σt]
        [FVal.val 2] = Except.ok [FVal.val 1]) :=
  ⟨⟨le_refl 0, by norm_num, by norm_num, by norm_num, by norm_num⟩,
    C7_variance_roundtrip 0 2 1 1 1 (le_refl 0) (by norm_num) (by norm_num)
      (by norm_num) (by norm_num)⟩

/-- C1 (code bug).  A pricing batch of three equal-shaped arrays in which
one of the three expiry dates (5) lies outside the pillar range `[10, 20]`
raises instead of pricing the in-range entries: `price_fx_vanilla_european`
passes the masked dates `[12, 15]` but the full-length `K` and `cp` arrays
to `interp_σ_surface`, whose shape assertion then fails.  The claim (and the
spec's batch-partial-failure property) requires one NaN entry and two priced
entries with no exception. -/
theorem C1_mixed_batch_raises :
    price_fx_vanilla_european extTest surfTest [5, 12, 15] [1, 1, 1] [1, 1, 1] false false
      = Except.error "AssertionError: dates.shape == K.shape" := rfl

/-- C3 counterexample.  With a Heston calibration whose SSE is exactly
0.001 — which does not exceed the threshold — the fitting step nevertheless
rejects the fit and raises (the source accepts only `SSE < 0.001`), so the
claimed "rejected if and only if SSE exceeds 0.001; not exceeding is
accepted" is false at the boundary. -/
theorem C3_boundary_sse_counterexample :
    fit_smile_for_date extTestBoundarySSE "heston_analytical_1993" (6629/10000) rowTest 3 []
      = Except.error "SSE is a large value, heston fit at 3 is likely poor" ∧
    ¬ ((1:ℚ)/1000 > 1/1000) := by
  constructor
  · unfold fit_smile_for_date
    rw [if_neg (by decide : ¬ ((dictLookup ([] : List (Date × SmileFitEntry)) 3).isSome = true))]
    rw [if_neg (by decide : ¬ ("heston_analytical_1993" = "univariate_spline"))]
    rw [if_neg (by decide : ¬ ("heston_analytical_1993" = "cubic_spline"))]
    rw [if_pos (by decide : "heston_analytical_1993".take 6 = "heston")]
    dsimp only [extTestBoundarySSE, extTest]
    rw [if_neg (by norm_num : ¬ ((1:ℚ)/1000 < 1/1000))]
    rfl
  · norm_num

/-- C3 amended.  During smile fitting with a Heston-family method and an
uncached date, the calibration is rejected — raising a `ValueError` naming
the offending date, which propagates out of the fitting loop and aborts the
whole call with no retry — if and only if its SSE is greater than or equal
to the fixed threshold 0.001; a fit with `SSE < 0.001` is accepted and
appended to the cache. -/
theorem C3_sse_gate (ext : Externals) (method : String) (S : ℚ) (row : SmileRow)
    (date : Date) (cache : List (Date × SmileFitEntry))
    (hmiss : dictLookup cache date = none)
    (hm : method.take 6 = "heston") :
    (fit_smile_for_date ext method S row date cache
        = Except.error ("SSE is a large value, heston fit at " ++ toString date ++
            " is likely poor")
      ↔ ¬ ((ext.heston_fit_vanilla_fx_smile smile_Δ row.Δ_convention (smile_σs row) S
            row.foreign_ccy_continuously_compounded_zero_rate
            row.domestic_ccy_continuously_compounded_zero_rate
            row.tenor_years smile_cp method).SSE < 1/1000)) ∧
    (((ext.heston_fit_vanilla_fx_smile smile_Δ row.Δ_convention (smile_σs row) S
          row.foreign_ccy_continuously_compounded_zero_rate
          row.domestic_ccy_continuously_compounded_zero_rate
          row.tenor_years smile_cp method).SSE < 1/1000) →
      fit_smile_for_date ext method S row date cache
        = Except.ok (cache ++ [(date,
            SmileFitEntry.heston (ext.heston_fit_vanilla_fx_smile smile_Δ row.Δ_convention
              (smile_σs row) S row.foreign_ccy_continuously_compounded_zero_rate
              row.domestic_ccy_continuously_compounded_zero_rate
              row.tenor_years smile_cp method))])) := by
  have hns : method ≠ "univariate_spline" := by
    intro h
    rw [h] at hm
    exact absurd hm (by decide)
  have hnc : method ≠ "cubic_spline" := by
    intro h
    rw [h] at hm
    exact absurd hm (by decide)
  have hcm : ¬ ((dictLookup cache date).isSome = true) := by
    rw [hmiss]
    simp
  unfold fit_smile_for_date
  rw [if_neg hcm, if_neg hns, if_neg hnc, if_pos hm]
  by_cases hsse : (ext.heston_fit_vanilla_fx_smile smile_Δ row.Δ_convention (smile_σs row) S
      row.foreign_ccy_continuously_compounded_zero_rate
      row.domestic_ccy_continuously_compounded_zero_rate
      row.tenor_years smile_cp method).SSE < 1/1000
  · rw [if_pos hsse]
    exact ⟨⟨fun h => Except.noConfusion h, fun h => absurd hsse h⟩, fun _ => rfl⟩
  · rw [if_neg hsse]
    exact ⟨⟨fun _ => hsse, fun _ => rfl⟩, fun h => absurd h hsse⟩

/-- Witness for the amended C3: with `extTest` the calibration SSE is 0, so
the gate accepts and caches the fit. -/
theorem C3_sse_gate_witness :
    (dictLookup ([] : List (Date × SmileFitEntry)) 3 = none) ∧
    ("heston_analytical_1993".take 6 = "heston") ∧
    ((fit_smile_for_date extTest "heston_analytical_1993" (6629/10000) rowTest 3 []
        = Except.error ("SSE is a large value, heston fit at " ++ toString (3 : Date) ++
            " is likely poor")
      ↔ ¬ ((extTest.heston_fit_vanilla_fx_smile smile_Δ rowTest.Δ_convention
            (smile_σs rowTest) (6629/10000)
            rowTest.foreign_ccy_continuously_compounded_zero_rate
            rowTest.domestic_ccy_continuously_compounded_zero_rate
            rowTest.tenor_years smile_cp "heston_analytical_1993").SSE < 1/1000)) ∧
      (((extTest.heston_fit_vanilla_fx_smile smile_Δ rowTest.Δ_convention (smile_σs rowTest)
            (6629/10000) rowTest.foreign_ccy_continuously_compounded_zero_rate
            rowTest.domestic_ccy_continuously_compounded_zero_rate
            rowTest.tenor_years smile_cp "heston_analytical_1993").SSE < 1/1000) →
        fit_smile_for_date extTest "heston_analytical_1993" (6629/10000) rowTest 3 []
          = Except.ok ([] ++ [((3 : Date),
              SmileFitEntry.heston (extTest.heston_fit_vanilla_fx_smile smile_Δ
                rowTest.Δ_convention (smile_σs rowTest) (6629/10000)
                rowTest.foreign_ccy_continuously_compounded_zero_rate
                rowTest.domestic_ccy_continuously_compounded_zero_rate
                rowTest.tenor_years smile_cp "heston_analytical_1993"))]))) :=
  ⟨rfl, by decide,
    C3_sse_gate extTest "heston_analytical_1993" (6629/10000) rowTest 3 [] rfl (by decide)⟩

/-- Unfolding equation for `dictLookup` on a cons cell. -/
lemma dictLookup_cons {α : Type} (k : Date) (v : α) (rest : List (Date × α)) (d : Date) :
    dictLookup ((k, v) :: rest) d = if d = k then some v else dictLookup rest d := rfl

/-- Dict entries survive appending (new cache entries are appended at the
end and never shadow an existing key). -/
lemma dictLookup_append_left {α : Type} {c : List (Date × α)} {d : Date} {e : α}
    (h : dictLookup c d = some e) (l : List (Date × α)) :
    dictLookup (c ++ l) d = some e := by
  induction c with
  | nil => exact absurd h (by simp [dictLookup])
  | cons kv rest ih =>
    cases kv with
    | mk k v =>
      rw [dictLookup_cons] at h
      rw [List.cons_append, dictLookup_cons]
      by_cases hd : d = k
      · rw [if_pos hd] at h ⊢
        exact h
      · rw [if_neg hd] at h ⊢
        exact ih h

/-- Inserting at a previously missing key makes it found. -/
lemma dictLookup_append_self {α : Type} {c : List (Date × α)} {d : Date}
    (h : dictLookup c d = none) (e : α) :
    dictLookup (c ++ [(d, e)]) d = some e := by
  induction c with
  | nil => simp [dictLookup]
  | cons kv rest ih =>
    cases kv with
    | mk k v =>
      rw [dictLookup_cons] at h
      rw [List.cons_append, dictLookup_cons]
      by_cases hd : d = k
      · rw [if_pos hd] at h
        exact absurd h (by simp)
      · rw [if_neg hd] at h ⊢
        exact ih h

/-- An already-cached date makes the fitting-loop body a no-op: the guard
`if date not in self.K_σ_daily_smile_func.keys()` short-circuits before any
fitting collaborator is consulted, for every choice of collaborators. -/
lemma fit_smile_for_date_cached {ext : Externals} {m : String} {S : ℚ} {row : SmileRow}
    {c : List (Date × SmileFitEntry)} {d : Date} {e : SmileFitEntry}
    (h : dictLookup c d = some e) :
    fit_smile_for_date ext m S row d c = Except.ok c := by
  unfold fit_smile_for_date
  rw [if_pos (by rw [h]; rfl)]

/-- A successful fitting-loop step preserves every existing cache entry. -/
lemma fit_smile_for_date_preserves {ext : Externals} {m : String} {S : ℚ} {row : SmileRow}
    {d2 : Date} {c c2 : List (Date × SmileFitEntry)}
    (hstep : fit_smile_for_date ext m S row d2 c = Except.ok c2)
    {d : Date} {e : SmileFitEntry} (h : dictLookup c d = some e) :
    dictLookup c2 d = some e := by
  unfold fit_smile_for_date at hstep
  split at hstep
  · cases hstep
    exact h
  · split at hstep
    · simp only [Except.ok.injEq] at hstep
      subst hstep
      exact dictLookup_append_left h _
    · split at hstep
      · simp only [Except.ok.injEq] at hstep
        subst hstep
        exact dictLookup_append_left h _
      · split at hstep
        · dsimp only at hstep
          split at hstep
          · simp only [Except.ok.injEq] at hstep
            subst hstep
            exact dictLookup_append_left h _
          · exact Except.noConfusion hstep
        · cases hstep
          exact h

/-- A successful fitting-loop step for a date, under a supported smile
method, leaves that date cached. -/
lemma fit_smile_for_date_creates {ext : Externals} {m : String} {S : ℚ} {row : SmileRow}
    {d : Date} {c c2 : List (Date × SmileFitEntry)}
    (hstep : fit_smile_for_date ext m S row d c = Except.ok c2)
    (hm : m = "univariate_spline" ∨ m = "cubic_spline" ∨ m.take 6 = "heston") :
    (dictLookup c2 d).isSome = true := by
  unfold fit_smile_for_date at hstep
  split at hstep
  · cases hstep
    assumption
  · rename_i hmiss
    have hnone : dictLookup c d = none := by
      cases hcd : dictLookup c d with
      | none => rfl
      | some v => rw [hcd] at hmiss; exact absurd rfl hmiss
    split at hstep
    · simp only [Except.ok.injEq] at hstep
      subst hstep
      rw [dictLookup_append_self hnone]
      rfl
    · split at hstep
      · simp only [Except.ok.injEq] at hstep
        subst hstep
        rw [dictLookup_append_self hnone]
        rfl
      · split at hstep
        · dsimp only at hstep
          split at hstep
          · simp only [Except.ok.injEq] at hstep
            subst hstep
            rw [dictLookup_append_self hnone]
            rfl
          · exact Except.noConfusion hstep
        · rename_i h1 h2 h3
          rcases hm with hm | hm | hm
          · exact absurd hm h1
          · exact absurd hm h2
          · exact absurd hm h3

/-- The whole fitting loop preserves every existing cache entry. -/
lemma exceptFoldl_fit_preserves (ext : Externals) (m : String) (S : ℚ)
    (rows : List (Date × SmileRow)) :
    ∀ c c2, exceptFoldl (fun c dr => fit_smile_for_date ext m S dr.2 dr.1 c) c rows
        = Except.ok c2 →
      ∀ d e, dictLookup c d = some e → dictLookup c2 d = some e := by
  induction rows with
  | nil =>
    intro c c2 h d e he
    unfold exceptFoldl at h
    cases h
    exact he
  | cons r rest ih =>
    intro c c2 h d e he
    unfold exceptFoldl at h
    cases hstep : fit_smile_for_date ext m S r.2 r.1 c with
    | error e2 =>
      rw [hstep] at h
      exact Except.noConfusion h
    | ok c1 =>
      rw [hstep] at h
      exact ih c1 c2 h d e (fit_smile_for_date_preserves hstep he)

/-- After a successful fitting loop under a supported smile method, every
date that has a materialised row is cached. -/
lemma exceptFoldl_fit_creates (ext : Externals) (m : String) (S : ℚ)
    (hm : m = "univariate_spline" ∨ m = "cubic_spline" ∨ m.take 6 = "heston")
    (rows : List (Date × SmileRow)) :
    ∀ c c2 d row, (d, row) ∈ rows →
      exceptFoldl (fun c dr => fit_smile_for_date ext m S dr.2 dr.1 c) c rows
        = Except.ok c2 →
      (dictLookup c2 d).isSome = true := by
  induction rows with
  | nil =>
    intro c c2 d row hmem _
    cases hmem
  | cons r rest ih =>
    intro c c2 d row hmem h
    unfold exceptFoldl at h
    cases hstep : fit_smile_for_date ext m S r.2 r.1 c with
    | error e2 =>
      rw [hstep] at h
      exact Except.noConfusion h
    | ok c1 =>
      rw [hstep] at h
      rcases List.mem_cons.1 hmem with heq | hmem2
      · have hd1 : (dictLookup c1 d).isSome = true := by
          have : r.1 = d := by rw [← heq]
          rw [← this]
          exact fit_smile_for_date_creates hstep hm
        obtain ⟨e, he⟩ := Option.isSome_iff_exists.1 hd1
        rw [exceptFoldl_fit_preserves ext m S rest c1 c2 h d e he]
        rfl
      · exact ih c1 c2 d row hmem2 h

/-- Materialising the daily rows for the unique query dates succeeds with
one row per date. -/
lemma exceptMapM_daily_mem {daily : Date → Option SmileRow} {ds : List Date}
    {rows : List (Date × SmileRow)}
    (h : exceptMapM (fun d =>
        match daily d with
        | some row => Except.ok (d, row)
        | none => Except.error "KeyError: dates not in Δ_σ_daily index") ds
      = Except.ok rows)
    {d : Date} (hd : d ∈ ds) : ∃ row, (d, row) ∈ rows := by
  induction ds generalizing rows with
  | nil => cases hd
  | cons a rest ih =>
    unfold exceptMapM at h
    cases ha : daily a with
    | none =>
      rw [ha] at h
      exact Except.noConfusion h
    | some rowa =>
      rw [ha] at h
      cases hrest : exceptMapM (fun d =>
          match daily d with
          | some row => Except.ok (d, row)
          | none => Except.error "KeyError: dates not in Δ_σ_daily index") rest with
      | error e =>
        rw [hrest] at h
        exact Except.noConfusion h
      | ok bs =>
        rw [hrest] at h
        cases h
        rcases List.mem_cons.1 hd with rfl | hd2
        · exact ⟨rowa, List.mem_cons_self _ _⟩
        · obtain ⟨row, hrow⟩ := ih hrest hd2
          exact ⟨row, List.mem_cons_of_mem _ hrow⟩

/-- Inversion of a successful `interp_σ_surface` call: the daily rows were
materialised, the fitting loop succeeded, and the returned surface is the
input surface with (only) the smile-fit cache replaced by the loop's
output. -/
lemma interp_σ_surface_ok_inv {ext : Externals} {s : FXVolatilitySurface}
    {dates : List Date} {K cp : List ℚ} {s2 : FXVolatilitySurface} {out : List ℚ}
    (h : interp_σ_surface ext s dates K cp = Except.ok (s2, out)) :
    ∃ rows cache2,
      exceptMapM (fun d =>
          match s.Δ_σ_daily d with
          | some row => Except.ok (d, row)
          | none => Except.error "KeyError: dates not in Δ_σ_daily index") dates.dedup
        = Except.ok rows ∧
      exceptFoldl (fun c dr => fit_smile_for_date ext s.smile_interpolation_method
          s.fx_spot_rate dr.2 dr.1 c) s.K_σ_daily_smile_func rows
        = Except.ok cache2 ∧
      s2 = { s with K_σ_daily_smile_func := cache2 } := by
  unfold interp_σ_surface at h
  split at h
  · exact Except.noConfusion h
  · split at h
    · exact Except.noConfusion h
    · split at h
      · exact Except.noConfusion h
      · rename_i rows hrows
        split at h
        · exact Except.noConfusion h
        · rename_i cache2 hfold
          split at h
          · exact Except.noConfusion h
          · rename_i parts hparts
            cases h
            exact ⟨rows, cache2, hrows, hfold, rfl⟩

/-- C8.  Across any successful implied-volatility query: (1) every smile fit
already cached before the call is still cached, identical, afterwards;
(2) any further fitting-loop step at a cached date is a no-op that returns
the cache unchanged, for arbitrary collaborators — the fit is never
recomputed; (3) under a supported smile method every queried date ends up
cached, so the first query for a date stores its fit and later queries reuse
it: the fit is computed at most once per date per surface lifetime. -/
theorem C8_fit_cached_at_most_once (ext ext2 : Externals) (s : FXVolatilitySurface)
    (dates : List Date) (K cp : List ℚ) (s2 : FXVolatilitySurface) (out : List ℚ)
    (hok : interp_σ_surface ext s dates K cp = Except.ok (s2, out)) :
    (∀ d e, dictLookup s.K_σ_daily_smile_func d = some e →
      dictLookup s2.K_σ_daily_smile_func d = some e) ∧
    (∀ d e, dictLookup s2.K_σ_daily_smile_func d = some e →
      ∀ m S row, fit_smile_for_date ext2 m S row d s2.K_σ_daily_smile_func
        = Except.ok s2.K_σ_daily_smile_func) ∧
    (∀ d, d ∈ dates →
      (s.smile_interpolation_method = "univariate_spline" ∨
        s.smile_interpolation_method = "cubic_spline" ∨
        s.smile_interpolation_method.take 6 = "heston") →
      (dictLookup s2.K_σ_daily_smile_func d).isSome = true) := by
  obtain ⟨rows, cache2, hrows, hfold, hs2⟩ := interp_σ_surface_ok_inv hok
  subst hs2
  refine ⟨?_, ?_, ?_⟩
  · intro d e he
    exact exceptFoldl_fit_preserves ext s.smile_interpolation_method s.fx_spot_rate rows
      s.K_σ_daily_smile_func cache2 hfold d e he
  · intro d e he m S row
    exact fit_smile_for_date_cached he
  · intro d hd hm
    obtain ⟨row, hrow⟩ := exceptMapM_daily_mem hrows (List.mem_dedup.2 hd)
    exact exceptFoldl_fit_creates ext s.smile_interpolation_method s.fx_spot_rate hm rows
      s.K_σ_daily_smile_func cache2 d row hrow hfold

/-- Witness for C8: an empty query on a surface with one cached fit keeps
the cached fit identical. -/
theorem C8_fit_cached_at_most_once_witness :
    (interp_σ_surface extTest surfTestCached [] [] []
      = Except.ok (surfTestCached, [])) ∧
    dictLookup surfTestCached.K_σ_daily_smile_func 12
      = some (SmileFitEntry.splineCubic [3/5, 2/3, 7/10] [1/10, 98408/1000000, 1/10]) :=
  ⟨rfl,
    (C8_fit_cached_at_most_once extTest extTest surfTestCached [] [] [] surfTestCached []
      rfl).1 12 _ rfl⟩

/-- Inversion of a successful `price_fx_vanilla_european` call: the returned
surface is either the input surface unchanged (no in-range date) or the
input surface with only the smile-fit cache replaced. -/
lemma price_fx_vanilla_european_ok_inv {ext : Externals} {s : FXVolatilitySurface}
    {dates : List Date} {K cp : List ℚ} {g i : Bool} {s2 : FXVolatilitySurface}
    {res : PriceResults}
    (h : price_fx_vanilla_european ext s dates K cp g i = Except.ok (s2, res)) :
    s2 = s ∨ ∃ cache2, s2 = { s with K_σ_daily_smile_func := cache2 } := by
  unfold price_fx_vanilla_european at h
  split at h
  · exact Except.noConfusion h
  · split at h
    · exact Except.noConfusion h
    · split at h
      · exact Except.noConfusion h
      · rename_i s3 σ hσ
        split at hσ
        · split at hσ
          · exact Except.noConfusion hσ
          · rename_i s4 vals hinterp
            obtain ⟨rows, cache2, _, _, hs4⟩ := interp_σ_surface_ok_inv hinterp
            cases hσ
            cases h
            exact Or.inr ⟨cache2, hs4⟩
        · cases hσ
          cases h
          exact Or.inl rfl

/-- C9.  Post-construction query operations — implied-volatility
interpolation and vanilla pricing — leave every field of the surface
unchanged except the per-date smile-fit cache: the pillar-date index, the
daily grid, the forward-curve/zero-curve/day-counter collaborators, the spot
rate and all construction-time identifiers are never mutated. -/
theorem C9_queries_mutate_only_cache (ext : Externals) (s : FXVolatilitySurface)
    (dates : List Date) (K cp : List ℚ) (g i : Bool) :
    (∀ s2 out, interp_σ_surface ext s dates K cp = Except.ok (s2, out) →
      s2.curve_date = s.curve_date ∧ s2.curve_ccy = s.curve_ccy ∧
      s2.foreign_ccy = s.foreign_ccy ∧ s2.domestic_ccy = s.domestic_ccy ∧
      s2.spot_date = s.spot_date ∧ s2.fx_spot_rate = s.fx_spot_rate ∧
      s2.year_fraction = s.year_fraction ∧
      s2.foreign_zero_rate = s.foreign_zero_rate ∧
      s2.domestic_zero_rate = s.domestic_zero_rate ∧
      s2.fx_forward_interp = s.fx_forward_interp ∧
      s2.σ_pillar_dates = s.σ_pillar_dates ∧ s2.Δ_σ_daily = s.Δ_σ_daily ∧
      s2.smile_interpolation_method = s.smile_interpolation_method) ∧
    (∀ s2 res, price_fx_vanilla_european ext s dates K cp g i = Except.ok (s2, res) →
      s2.curve_date = s.curve_date ∧ s2.curve_ccy = s.curve_ccy ∧
      s2.foreign_ccy = s.foreign_ccy ∧ s2.domestic_ccy = s.domestic_ccy ∧
      s2.spot_date = s.spot_date ∧ s2.fx_spot_rate = s.fx_spot_rate ∧
      s2.year_fraction = s.year_fraction ∧
      s2.foreign_zero_rate = s.foreign_zero_rate ∧
      s2.domestic_zero_rate = s.domestic_zero_rate ∧
      s2.fx_forward_interp = s.fx_forward_interp ∧
      s2.σ_pillar_dates = s.σ_pillar_dates ∧ s2.Δ_σ_daily = s.Δ_σ_daily ∧
      s2.smile_interpolation_method = s.smile_interpolation_method) := by
  constructor
  · intro s2 out hok
    obtain ⟨rows, cache2, _, _, hs2⟩ := interp_σ_surface_ok_inv hok
    subst hs2
    exact ⟨rfl, rfl, rfl, rfl, rfl, rfl, rfl, rfl, rfl, rfl, rfl, rfl, rfl⟩
  · intro s2 res hok
    rcases price_fx_vanilla_european_ok_inv hok with hs2 | ⟨cache2, hs2⟩ <;> subst hs2 <;>
      exact ⟨rfl, rfl, rfl, rfl, rfl, rfl, rfl, rfl, rfl, rfl, rfl, rfl, rfl⟩

/-- Witness for C9: the empty batch succeeds on both operations and leaves
the surface unchanged. -/
theorem C9_queries_mutate_only_cache_witness :
    (interp_σ_surface extTest surfTest [] [] [] = Except.ok (surfTest, [])) ∧
    (price_fx_vanilla_european extTest surfTest [] [] [] false false
      = Except.ok (surfTest,
          { option_value := [], market_data_σ := [], market_data_r_f := [],
            market_data_r_d := [], market_data_F := [] })) ∧
    surfTest.Δ_σ_daily = surfTest.Δ_σ_daily ∧
    surfTest.σ_pillar_dates = surfTest.σ_pillar_dates ∧
    surfTest.fx_spot_rate = surfTest.fx_spot_rate :=
  ⟨rfl, rfl, by
    have h := (C9_queries_mutate_only_cache extTest surfTest [] [] [] false false).1
      surfTest [] rfl
    exact ⟨h.2.2.2.2.2.2.2.2.2.2.2.1,
      ((C9_queries_mutate_only_cache extTest surfTest [] [] [] false false).2
        surfTest _ rfl).2.2.2.2.2.2.2.2.2.2.1,
      h.2.2.2.2.2.1⟩⟩

/-- C10.  `simulate_fx_rate_path` handles only
`method == 'geometric_brownian_motion'`; for every other method string the
trailing `if` is skipped and the function returns Python's implicit `None`
without raising and without assembling any results dictionary. -/
theorem C10_non_gbm_returns_none (ext : Externals) (s : FXVolatilitySurface)
    (date_grid : Option (List Date)) (nb_of_simulations : Nat)
    (flag_apply_antithetic_variates : Bool) (method : String)
    (hm : method ≠ "geometric_brownian_motion") :
    simulate_fx_rate_path ext s date_grid nb_of_simulations
      flag_apply_antithetic_variates method = Except.ok none := by
  unfold simulate_fx_rate_path
  rw [if_neg hm]

/-- Witness for C10 at the Heston method string. -/
theorem C10_non_gbm_returns_none_witness :
    ("heston_analytical_1993" ≠ "geometric_brownian_motion") ∧
    simulate_fx_rate_path extTest surfTest none 0 false "heston_analytical_1993"
      = Except.ok none :=
  ⟨by decide,
    C10_non_gbm_returns_none extTest surfTest none 0 false "heston_analytical_1993"
      (by decide)⟩
